import Mathlib

/-!
Shallow embedding of the wkhtmltopdf-rs lifecycle layer (src/lowlevel.rs,
src/error.rs, src/image/mod.rs, src/image/lowlevel.rs).

The Rust code guards a non-reentrant native engine behind a process-wide
mutex-protected state machine (`WKHTMLTOPDF_STATE`), a lazily captured init
thread id (`WKHTMLTOPDF_INIT_THREAD`), and two callback registries keyed by
the converter's raw pointer.  Here that process-wide state is an explicit
`ProcState` value threaded through every operation.  The native engine is an
external FFI library, so its responses (init success, setting accept/reject,
returned pointers, the callback firing script of one convert call) are inputs
to the model, and the model counts every native call in `NativeCalls` so that
"performs no native mutation" claims are statable.  Raw pointers are modelled
as `Nat` identities; panics (Rust `expect` / `unreachable!`) are explicit
outcome constructors.
-/

namespace Wkhtmltopdf

/-- Model of WkhtmltopdfState (src/lowlevel.rs lines 20-29): the process-wide
engine lifecycle state stored in the WKHTMLTOPDF_STATE mutex. -/
inductive WkhtmltopdfState
  | New
  | Ready
  | Busy
  | Dropped
  deriving DecidableEq, Repr

/-- Model of the Error enum (src/error.rs lines 5-60).  The io::Error payload
is modelled as its message string. -/
inductive Error
  | IoError (msg : String)
  | IllegalInit
  | NotInitialized
  | Blocked
  | ThreadMismatch (before after : Nat)
  | ConversionFailed (msg : String)
  | GlobalSettingFailure (name value : String)
  | ObjectSettingFailure (name value : String)
  deriving DecidableEq, Repr

/-- Counters for every native wkhtmltox FFI call the wrapper can make.  The
stub engine records call counts so that claims of the form "performs no
native engine mutation" are statable and checkable. -/
structure NativeCalls where
  init : Nat := 0
  create_global_settings : Nat := 0
  set_global_setting : Nat := 0
  create_object_settings : Nat := 0
  set_object_setting : Nat := 0
  add_object : Nat := 0
  create_converter : Nat := 0
  convert : Nat := 0
  get_output : Nat := 0
  destroy_global_settings : Nat := 0
  destroy_object_settings : Nat := 0
  destroy_converter : Nat := 0
  deinit : Nat := 0
  deriving DecidableEq, Repr

/-- Model of the process-wide statics of one lowlevel module (src/lowlevel.rs
lines 31-41): the engine state mutex, the lazily captured init thread id
(None until first dereferenced), and the key sets of the two callback
registries (HashMap keys are converter pointers cast to usize).  The image
module (src/image/lowlevel.rs lines 32-42) duplicates the same statics, so
the same state type serves both, as a second independent value. -/
structure ProcState where
  wkState : WkhtmltopdfState
  initThread : Option Nat
  finishedCallbacks : List Nat
  errorCallbacks : List Nat
  native : NativeCalls
  deriving DecidableEq, Repr

/-- The statics before any use: state New, init thread never evaluated,
empty callback registries, no native calls made. -/
def ProcState.startup : ProcState :=
  { wkState := .New, initThread := none, finishedCallbacks := [], errorCallbacks := [],
    native := {} }

/-- Model of dereferencing the lazy static WKHTMLTOPDF_INIT_THREAD
(src/lowlevel.rs line 34): the first dereference evaluates thread_id::get()
on the dereferencing thread and stores it; later dereferences return the
stored id.  `tid` is the current thread's id. -/
def derefInitThread (tid : Nat) (s : ProcState) : Nat × ProcState :=
  match s.initThread with
  | some t => (t, s)
  | none => (tid, { s with initThread := some tid })

/-- Model of PdfGuard (src/lowlevel.rs lines 50-54): a fieldless token whose
existence means pdf_init returned it. -/
structure PdfGuard where
  deriving DecidableEq, Repr

/-- Model of pdf_init (src/lowlevel.rs lines 85-104).  `nativeInitOk` is
whether the native wkhtmltopdf_init(0) call returned 1; `tid` is the calling
thread.  Under the state mutex: in state New it calls native init, on success
moves to Ready and forces the init-thread lazy static, and returns Ok(guard)
even when native init failed (only logging the failure); in every other state
it returns Err(IllegalInit). -/
def pdf_init (nativeInitOk : Bool) (tid : Nat) (s : ProcState) :
    Except Error PdfGuard × ProcState :=
  match s.wkState with
  | .New =>
      let s1 : ProcState := { s with native := { s.native with init := s.native.init + 1 } }
      if nativeInitOk then
        let s2 := { s1 with wkState := .Ready }
        let (_, s3) := derefInitThread tid s2
        (.ok ⟨⟩, s3)
      else
        (.ok ⟨⟩, s1)
  | _ => (.error .IllegalInit, s)

/-- Model of PdfGlobalSettings (src/lowlevel.rs lines 57-61): the native
pointer (as an identity) and the needs_delete ownership flag. -/
structure PdfGlobalSettings where
  global_settings : Nat
  needs_delete : Bool
  deriving DecidableEq, Repr

/-- Model of PdfGlobalSettings::new (src/lowlevel.rs lines 110-135).  First
the thread check against the lazily forced init thread id; a mismatch returns
ThreadMismatch before taking the state lock or touching the engine.  Then,
under the state mutex, New and Dropped give NotInitialized, Busy gives
Blocked, and Ready calls the native create-global-settings (returning pointer
`gsPtr`) and flips the state to Busy in the same locked step. -/
def PdfGlobalSettings.new (tid : Nat) (gsPtr : Nat) (s : ProcState) :
    Except Error PdfGlobalSettings × ProcState :=
  let (initT, s1) := derefInitThread tid s
  if initT ≠ tid then
    (.error (.ThreadMismatch initT tid), s1)
  else
    match s1.wkState with
    | .New => (.error .NotInitialized, s1)
    | .Dropped => (.error .NotInitialized, s1)
    | .Busy => (.error .Blocked, s1)
    | .Ready =>
        let s2 := { s1 with
          native := { s1.native with
            create_global_settings := s1.native.create_global_settings + 1 },
          wkState := .Busy }
        (.ok ⟨gsPtr, true⟩, s2)

/-- Whether a Rust string has an embedded null byte, the exact condition under
which CString::new fails and the `expect` in the set methods panics. -/
def hasNullByte (x : String) : Bool :=
  x.toList.contains (Char.ofNat 0)

/-- Outcome of one set call: success, a typed error, or a Rust panic
(CString `expect` or the `unreachable!` arm). -/
inductive SetOutcome
  | ok
  | err (e : Error)
  | panicked (msg : String)
  deriving DecidableEq, Repr

/-- Whether a SetOutcome is a typed error (as opposed to success or panic). -/
def SetOutcome.isErr : SetOutcome → Bool
  | .err _ => true
  | _ => false

/-- Model of PdfGlobalSettings::set (src/lowlevel.rs lines 138-153).
CString::new on name then value panics via expect on an embedded null byte;
otherwise the native set call is made and its c_int return `nativeRet` is
matched: 0 gives GlobalSettingFailure(name, value), 1 gives Ok, anything else
hits the unreachable! panic. -/
def PdfGlobalSettings.set (_self : PdfGlobalSettings) (name value : String) (nativeRet : Int)
    (s : ProcState) : SetOutcome × ProcState :=
  if hasNullByte name then
    (.panicked "setting name may not contain interior null bytes", s)
  else if hasNullByte value then
    (.panicked "setting value may not contain interior null bytes", s)
  else
    let s1 : ProcState := { s with native := { s.native with
      set_global_setting := s.native.set_global_setting + 1 } }
    if nativeRet = 0 then (.err (.GlobalSettingFailure name value), s1)
    else if nativeRet = 1 then (.ok, s1)
    else (.panicked "wkhtmltopdf_set_global_setting returned invalid value", s1)

/-- Model of PdfObjectSettings (src/lowlevel.rs lines 64-68). -/
structure PdfObjectSettings where
  object_settings : Nat
  needs_delete : Bool
  deriving DecidableEq, Repr

/-- Model of PdfObjectSettings::new (src/lowlevel.rs lines 284-290): calls the
native create-object-settings (returning pointer `osPtr`), flag set. -/
def PdfObjectSettings.new (osPtr : Nat) (s : ProcState) : PdfObjectSettings × ProcState :=
  let s1 : ProcState := { s with native := { s.native with
    create_object_settings := s.native.create_object_settings + 1 } }
  (⟨osPtr, true⟩, s1)

/-- Model of PdfObjectSettings::set (src/lowlevel.rs lines 292-307), the
object-scope twin of the global set: 0 gives ObjectSettingFailure. -/
def PdfObjectSettings.set (_self : PdfObjectSettings) (name value : String) (nativeRet : Int)
    (s : ProcState) : SetOutcome × ProcState :=
  if hasNullByte name then
    (.panicked "setting name may not contain interior null bytes", s)
  else if hasNullByte value then
    (.panicked "setting value may not contain interior null bytes", s)
  else
    let s1 : ProcState := { s with native := { s.native with
      set_object_setting := s.native.set_object_setting + 1 } }
    if nativeRet = 0 then (.err (.ObjectSettingFailure name value), s1)
    else if nativeRet = 1 then (.ok, s1)
    else (.panicked "wkhtmltopdf_set_object_setting returned invalid value", s1)

/-- Model of Drop for PdfGlobalSettings (src/lowlevel.rs lines 310-319): the
native destroy call is made only while needs_delete is still true. -/
def PdfGlobalSettings.drop (self : PdfGlobalSettings) (s : ProcState) : ProcState :=
  if self.needs_delete then
    { s with native := { s.native with
      destroy_global_settings := s.native.destroy_global_settings + 1 } }
  else s

/-- Model of Drop for PdfObjectSettings (src/lowlevel.rs lines 328-337). -/
def PdfObjectSettings.drop (self : PdfObjectSettings) (s : ProcState) : ProcState :=
  if self.needs_delete then
    { s with native := { s.native with
      destroy_object_settings := s.native.destroy_object_settings + 1 } }
  else s

/-- Model of PdfConverter (src/lowlevel.rs lines 71-75): the native converter
pointer plus ownership of the global settings it was built from. -/
structure PdfConverter where
  converter : Nat
  _global : PdfGlobalSettings
  deriving DecidableEq, Repr

/-- Model of PdfGlobalSettings::create_converter (src/lowlevel.rs lines
155-166): the native create-converter call consumes the global settings
(returning pointer `convPtr`), so needs_delete is flipped to false on the
handle the converter now owns. -/
def PdfGlobalSettings.create_converter (self : PdfGlobalSettings) (convPtr : Nat)
    (s : ProcState) : PdfConverter × ProcState :=
  let s1 : ProcState := { s with native := { s.native with
    create_converter := s.native.create_converter + 1 } }
  (⟨convPtr, { self with needs_delete := false }⟩, s1)

/-- Model of Drop for PdfConverter (src/lowlevel.rs lines 321-326) including
the drop glue for its _global field: destroy the native converter, then the
owned global settings value is dropped (a no-op when its flag is false). -/
def PdfConverter.drop (self : PdfConverter) (s : ProcState) : ProcState :=
  let s1 : ProcState := { s with native := { s.native with
    destroy_converter := s.native.destroy_converter + 1 } }
  self._global.drop s1

/-- Model of HashMap::insert on the key set of a callback registry: the key
becomes present (values are tracked by the convert model itself). -/
def insertKey (id : Nat) (l : List Nat) : List Nat :=
  if id ∈ l then l else id :: l

/-- Model of HashMap::remove on the key set of a callback registry: the key
becomes absent. -/
def removeKey (id : Nat) (l : List Nat) : List Nat :=
  l.filter (fun k => k != id)

/-- Modelled FFI boundary: during one native convert call the engine invokes
error_callback (src/lowlevel.rs lines 371-380) once per message, in order.
Each invocation looks the converter id up in ERROR_CALLBACKS; when present,
the registered closure (src/lowlevel.rs lines 255-258) pushes the message
onto the shared accumulator, otherwise the message is only printed. -/
def fireErrors (id : Nat) (msgs : List String) (errCbs : List Nat) (acc : List String) :
    List String :=
  match msgs with
  | [] => acc
  | m :: rest =>
      if id ∈ errCbs then fireErrors id rest errCbs (acc ++ [m])
      else fireErrors id rest errCbs acc

/-- Model of finished_callback (src/lowlevel.rs lines 360-369): it removes the
converter's entry from FINISHED_CALLBACKS and, when one was present, runs the
registered closure (src/lowlevel.rs lines 245-253), which sends Ok for status
code 1 and otherwise Err(ConversionFailed) with the accumulated error
messages joined by ", ".  Returns the registry key set after removal and the
value now sitting in the channel, if any. -/
def fireFinished (id : Nat) (status : Int) (finCbs : List Nat) (acc : List String) :
    List Nat × Option (Except Error Unit) :=
  if id ∈ finCbs then
    (removeKey id finCbs,
      some (if status = 1 then .ok ()
        else .error (.ConversionFailed (String.intercalate ", " acc))))
  else (finCbs, none)

/-- Modelled FFI boundary: the observable behavior of one native
wkhtmltopdf_convert run, per the documented callback discipline — the error
callback fires zero or more times with `errors` (in order), then the finished
callback fires exactly once with status code `finished`, and the convert call
itself returns 1 exactly when the finished status is 1. -/
structure ConvertScript where
  errors : List String
  finished : Int
  deriving DecidableEq, Repr

/-- Model of PdfOutput (src/lib.rs: data slice into the converter-owned
buffer, plus ownership of the converter that produced it).  The borrowed
slice is modelled by its byte length. -/
structure PdfOutput where
  data_len : Nat
  _converter : PdfConverter
  deriving DecidableEq, Repr

/-- Outcome of PdfConverter::convert: a PdfOutput, a typed error, or a Rust
panic (`expect("sender disconnected")` / `unreachable!("failed without
errors")`). -/
inductive ConvertResult
  | ok (out : PdfOutput)
  | err (e : Error)
  | panicked (msg : String)
  deriving DecidableEq, Repr

/-- Model of PdfConverter::convert (src/lowlevel.rs lines 207-230) together
with its helpers setup_callbacks (lines 239-280) and remove_callbacks (lines
232-237).  setup_callbacks inserts the finished and error closures keyed by
the converter pointer; the native convert call fires the scripted callbacks;
remove_callbacks removes both entries (a no-op for an entry finished_callback
already removed); on success the output buffer (length `outLen`) is read and
wrapped with the still-alive converter, on failure the channel is received
and the consumed converter is dropped. -/
def PdfConverter.convert (self : PdfConverter) (script : ConvertScript) (outLen : Nat)
    (s : ProcState) : ConvertResult × ProcState :=
  let id := self.converter
  let s1 : ProcState := { s with
    finishedCallbacks := insertKey id s.finishedCallbacks,
    errorCallbacks := insertKey id s.errorCallbacks }
  let s2 : ProcState := { s1 with native := { s1.native with
    convert := s1.native.convert + 1 } }
  let acc := fireErrors id script.errors s2.errorCallbacks []
  let fin := fireFinished id script.finished s2.finishedCallbacks acc
  let s3 : ProcState := { s2 with finishedCallbacks := fin.1 }
  let s4 : ProcState := { s3 with
    errorCallbacks := removeKey id s3.errorCallbacks,
    finishedCallbacks := removeKey id s3.finishedCallbacks }
  if script.finished = 1 then
    let s5 : ProcState := { s4 with native := { s4.native with
      get_output := s4.native.get_output + 1 } }
    (.ok ⟨outLen, self⟩, s5)
  else
    let s5 := self.drop s4
    match fin.2 with
    | none => (.panicked "sender disconnected", s5)
    | some (.ok _) => (.panicked "failed without errors", s5)
    | some (.error e) => (.err e, s5)

/-- Outcome of an add_*_object call: success or a Rust panic. -/
inductive AddOutcome
  | ok
  | panicked (msg : String)
  deriving DecidableEq, Repr

/-- Model of PdfConverter::add_page_object (src/lowlevel.rs lines 173-185):
sets the "page" object setting (panicking via expect if that fails), makes
the native add-object call which attaches the object settings, flips
needs_delete to false, and then the consumed object-settings value goes out
of scope and is dropped (also on the unwind of a panic, with the flag still
true there).  `nativeSetRet` is the native return of the inner set call. -/
def PdfConverter.add_page_object (_self : PdfConverter) (pdf_object : PdfObjectSettings)
    (page : String) (nativeSetRet : Int) (s : ProcState) : AddOutcome × ProcState :=
  match pdf_object.set "page" page nativeSetRet s with
  | (.ok, s1) =>
      let s2 : ProcState := { s1 with native := { s1.native with
        add_object := s1.native.add_object + 1 } }
      let transferred : PdfObjectSettings := { pdf_object with needs_delete := false }
      (.ok, transferred.drop s2)
  | (.err _, s1) => (.panicked "Failed to set 'page' setting", pdf_object.drop s1)
  | (.panicked m, s1) => (.panicked m, pdf_object.drop s1)

/-- Model of PdfConverter::add_html_object (src/lowlevel.rs lines 192-200):
CString::new(html) panics on an embedded null byte; otherwise the native
add-object call attaches the object settings with the inline HTML payload,
needs_delete is flipped to false, and the consumed value is dropped. -/
def PdfConverter.add_html_object (_self : PdfConverter) (pdf_object : PdfObjectSettings)
    (html : String) (s : ProcState) : AddOutcome × ProcState :=
  if hasNullByte html then
    (.panicked "null byte found", pdf_object.drop s)
  else
    let s1 : ProcState := { s with native := { s.native with
      add_object := s.native.add_object + 1 } }
    let transferred : PdfObjectSettings := { pdf_object with needs_delete := false }
    (.ok, transferred.drop s1)

/-- Model of Drop for PdfOutput (src/lowlevel.rs lines 340-346) including the
drop glue for its _converter field: the engine state is unconditionally set
back to Ready, then the owned converter (and through it the transferred
global settings) is dropped. -/
def PdfOutput.drop (self : PdfOutput) (s : ProcState) : ProcState :=
  let s1 : ProcState := { s with wkState := .Ready }
  self._converter.drop s1

/-- Model of Drop for PdfGuard (src/lowlevel.rs lines 348-358): under the
state mutex the native deinit call is made and the state is set to Dropped
regardless of the deinit call's reported success (`nativeDeinitOk`), which is
only logged. -/
def PdfGuard.drop (_self : PdfGuard) (_nativeDeinitOk : Bool) (s : ProcState) : ProcState :=
  let s1 : ProcState := { s with native := { s.native with
    deinit := s.native.deinit + 1 } }
  { s1 with wkState := .Dropped }

/-- Model of ImageGlobalSettings (src/image/lowlevel.rs lines 58-62), the
image-module twin of PdfGlobalSettings.  The image module keeps its own
independent statics of the same shape, so its operations run over a second
`ProcState` value. -/
structure ImageGlobalSettings where
  global_settings : Nat
  needs_delete : Bool
  deriving DecidableEq, Repr

/-- Model of ImageGlobalSettings::new (src/image/lowlevel.rs lines 104-129):
identical logic to PdfGlobalSettings::new over the image-module statics —
thread check first, then New/Dropped give NotInitialized, Busy gives Blocked,
Ready creates the native settings and flips the state to Busy in the same
locked step. -/
def ImageGlobalSettings.new (tid : Nat) (gsPtr : Nat) (s : ProcState) :
    Except Error ImageGlobalSettings × ProcState :=
  let (initT, s1) := derefInitThread tid s
  if initT ≠ tid then
    (.error (.ThreadMismatch initT tid), s1)
  else
    match s1.wkState with
    | .New => (.error .NotInitialized, s1)
    | .Dropped => (.error .NotInitialized, s1)
    | .Busy => (.error .Blocked, s1)
    | .Ready =>
        let s2 : ProcState := { s1 with
          native := { s1.native with
            create_global_settings := s1.native.create_global_settings + 1 },
          wkState := .Busy }
        (.ok ⟨gsPtr, true⟩, s2)

/-- Model of ImageGlobalSettings::set (src/image/lowlevel.rs lines 136-151):
same shape as the pdf global set, including the expect panics on embedded
null bytes and GlobalSettingFailure on native rejection. -/
def ImageGlobalSettings.set (_self : ImageGlobalSettings) (name value : String)
    (nativeRet : Int) (s : ProcState) : SetOutcome × ProcState :=
  if hasNullByte name then
    (.panicked "setting name may not contain interior null bytes", s)
  else if hasNullByte value then
    (.panicked "setting value may not contain interior null bytes", s)
  else
    let s1 : ProcState := { s with native := { s.native with
      set_global_setting := s.native.set_global_setting + 1 } }
    if nativeRet = 0 then (.err (.GlobalSettingFailure name value), s1)
    else if nativeRet = 1 then (.ok, s1)
    else (.panicked "wkhtmltoimage_set_global_setting returned invalid value", s1)

/-- Model of Drop for ImageGlobalSettings: release the native resource only
while needs_delete is still true (the image module relies on the same flag
discipline as src/lowlevel.rs lines 310-319). -/
def ImageGlobalSettings.drop (self : ImageGlobalSettings) (s : ProcState) : ProcState :=
  if self.needs_delete then
    { s with native := { s.native with
      destroy_global_settings := s.native.destroy_global_settings + 1 } }
  else s

/-- Model of ImageConverter (src/image/lowlevel.rs lines 65-69). -/
structure ImageConverter where
  converter : Nat
  _global : ImageGlobalSettings
  deriving DecidableEq, Repr

/-- Model of ImageGlobalSettings::create_converter (src/image/lowlevel.rs
lines 155-164), the payload-free variant that build_from_url and
build_from_path use: the native create-converter call consumes the global
settings, so needs_delete flips to false. -/
def ImageGlobalSettings.create_converter (self : ImageGlobalSettings) (convPtr : Nat)
    (s : ProcState) : ImageConverter × ProcState :=
  let s1 : ProcState := { s with native := { s.native with
    create_converter := s.native.create_converter + 1 } }
  (⟨convPtr, { self with needs_delete := false }⟩, s1)

/-- Model of Drop for ImageConverter (src/image/lowlevel.rs lines 265-270)
with the drop glue for its _global field. -/
def ImageConverter.drop (self : ImageConverter) (s : ProcState) : ProcState :=
  let s1 : ProcState := { s with native := { s.native with
    destroy_converter := s.native.destroy_converter + 1 } }
  self._global.drop s1

/-- Model of ImageOutput (src/image/mod.rs lines 42-47). -/
structure ImageOutput where
  data_len : Nat
  _converter : ImageConverter
  deriving DecidableEq, Repr

/-- Outcome of ImageConverter::convert. -/
inductive ImageConvertResult
  | ok (out : ImageOutput)
  | err (e : Error)
  | panicked (msg : String)
  deriving DecidableEq, Repr

/-- Model of ImageConverter::convert (src/image/lowlevel.rs lines 189-212)
with setup_callbacks (lines 221-262) and remove_callbacks (lines 214-219):
the same register / native call / deregister / receive sequence as the pdf
converter, over the image module's own registries. -/
def ImageConverter.convert (self : ImageConverter) (script : ConvertScript) (outLen : Nat)
    (s : ProcState) : ImageConvertResult × ProcState :=
  let id := self.converter
  let s1 : ProcState := { s with
    finishedCallbacks := insertKey id s.finishedCallbacks,
    errorCallbacks := insertKey id s.errorCallbacks }
  let s2 : ProcState := { s1 with native := { s1.native with
    convert := s1.native.convert + 1 } }
  let acc := fireErrors id script.errors s2.errorCallbacks []
  let fin := fireFinished id script.finished s2.finishedCallbacks acc
  let s3 : ProcState := { s2 with finishedCallbacks := fin.1 }
  let s4 : ProcState := { s3 with
    errorCallbacks := removeKey id s3.errorCallbacks,
    finishedCallbacks := removeKey id s3.finishedCallbacks }
  if script.finished = 1 then
    let s5 : ProcState := { s4 with native := { s4.native with
      get_output := s4.native.get_output + 1 } }
    (.ok ⟨outLen, self⟩, s5)
  else
    let s5 := self.drop s4
    match fin.2 with
    | none => (.panicked "sender disconnected", s5)
    | some (.ok _) => (.panicked "failed without errors", s5)
    | some (.error e) => (.err e, s5)

/-- Model of ImageBuilder (src/image/mod.rs lines 100-104): the accumulated
global-setting pairs.  The Rust map is a HashMap; its unspecified iteration
order is modelled by taking the pairs in list order. -/
structure ImageBuilder where
  gs : List (String × String)
  deriving DecidableEq, Repr

/-- Model of the setting-application loop inside ImageBuilder::global_settings
(src/image/mod.rs lines 266-272): applies each pair with the `?` early
return, so the first failing or panicking set stops the batch.  `setRet`
gives the native return for each pair reached. -/
def applySettings (global : ImageGlobalSettings) (pairs : List (String × String))
    (setRet : String → String → Int) (s : ProcState) : SetOutcome × ProcState :=
  match pairs with
  | [] => (.ok, s)
  | (n, v) :: rest =>
      match global.set n v (setRet n v) s with
      | (.ok, s1) => applySettings global rest setRet s1
      | (.err e, s1) => (.err e, s1)
      | (.panicked m, s1) => (.panicked m, s1)

/-- Outcome of ImageBuilder::global_settings. -/
inductive GsResult
  | ok (g : ImageGlobalSettings)
  | err (e : Error)
  | panicked (msg : String)
  deriving DecidableEq, Repr

/-- Model of ImageBuilder::global_settings (src/image/mod.rs lines 266-272):
create the low-level global settings, then apply every accumulated pair; on a
failing set the `?` return drops the still-owned handle (releasing the native
resource, since needs_delete is still true). -/
def ImageBuilder.global_settings (self : ImageBuilder) (tid gsPtr : Nat)
    (setRet : String → String → Int) (s : ProcState) : GsResult × ProcState :=
  match ImageGlobalSettings.new tid gsPtr s with
  | (.error e, s1) => (.err e, s1)
  | (.ok global, s1) =>
      match applySettings global self.gs setRet s1 with
      | (.ok, s2) => (.ok global, s2)
      | (.err e, s2) => (.err e, global.drop s2)
      | (.panicked m, s2) => (.panicked m, global.drop s2)

/-- Outcome of an ImageBuilder build call. -/
inductive ImgBuildResult
  | ok (out : ImageOutput)
  | err (e : Error)
  | panicked (msg : String)
  deriving DecidableEq, Repr

/-- Model of ImageBuilder::build_from_path (src/image/mod.rs lines 216-237).
`pathIsFile` is the result of the Path::is_file check on `path` (the path is
modelled as its lossy string form).  When the path is not an existing regular
file, the method warns and returns Err(GlobalSettingFailure("in", path))
before anything else; otherwise it builds the global settings from the
accumulated pairs, sets "in" to the path (`inRet` is that native return,
with the `?` drop on failure), creates the converter without an inline
payload (mod.rs passes None), and converts. -/
def ImageBuilder.build_from_path (self : ImageBuilder) (pathIsFile : Bool) (path : String)
    (tid gsPtr : Nat) (setRet : String → String → Int) (inRet : Int) (convPtr : Nat)
    (script : ConvertScript) (outLen : Nat) (s : ProcState) : ImgBuildResult × ProcState :=
  if !pathIsFile then
    (.err (.GlobalSettingFailure "in" path), s)
  else
    match self.global_settings tid gsPtr setRet s with
    | (.err e, s1) => (.err e, s1)
    | (.panicked m, s1) => (.panicked m, s1)
    | (.ok global, s1) =>
        match global.set "in" path inRet s1 with
        | (.err e, s2) => (.err e, global.drop s2)
        | (.panicked m, s2) => (.panicked m, global.drop s2)
        | (.ok, s2) =>
            let cc := global.create_converter convPtr s2
            match cc.1.convert script outLen cc.2 with
            | (.ok out, s3) => (.ok out, s3)
            | (.err e, s3) => (.err e, s3)
            | (.panicked m, s3) => (.panicked m, s3)

instance {ε α : Type} [DecidableEq ε] [DecidableEq α] : DecidableEq (Except ε α) := fun x y =>
  match x, y with
  | .ok a, .ok b =>
      if h : a = b then .isTrue (h ▸ rfl) else .isFalse (fun hc => h (Except.ok.inj hc))
  | .error a, .error b =>
      if h : a = b then .isTrue (h ▸ rfl) else .isFalse (fun hc => h (Except.error.inj hc))
  | .ok _, .error _ => .isFalse (fun hc => Except.noConfusion hc)
  | .error _, .ok _ => .isFalse (fun hc => Except.noConfusion hc)

/-- A constantly accepting native set stub, for concrete scenarios. -/
def acceptAll : String → String → Int := fun _ _ => 1

/-- Concrete scenario: the statics after a successful pdf_init on thread 7. -/
def readyState : ProcState := (pdf_init true 7 ProcState.startup).2

/-- Concrete scenario: thread 7 then also created global settings (native
pointer 100), leaving the engine Busy. -/
def busyState : ProcState := (PdfGlobalSettings.new 7 100 readyState).2

/-- The concrete converter built by consuming those settings (native pointer
200). -/
def busyConverter : PdfConverter :=
  ((⟨100, true⟩ : PdfGlobalSettings).create_converter 200 busyState).1

/-- The statics after building that converter. -/
def converterState : ProcState :=
  ((⟨100, true⟩ : PdfGlobalSettings).create_converter 200 busyState).2

/-- Concrete scenario: a failed conversion (one error message "boom",
finished status 0) run on that converter. -/
def failedRun : ConvertResult × ProcState :=
  busyConverter.convert ⟨["boom"], 0⟩ 0 converterState

/-- Concrete scenario: a successful conversion (no errors, status 1, 3-byte
output) run on that converter. -/
def happyRun : ConvertResult × ProcState :=
  busyConverter.convert ⟨[], 1⟩ 3 converterState

/-- Concrete scenario: statics whose init thread was recorded as 3. -/
def mismatchState : ProcState := { ProcState.startup with initThread := some 3 }

theorem mem_insertKey_self (id : Nat) (l : List Nat) : id ∈ insertKey id l := by
  unfold insertKey
  split
  · assumption
  · exact List.mem_cons_self _ _

theorem mem_insertKey {k id : Nat} {l : List Nat} (h : k ≠ id) :
    k ∈ insertKey id l ↔ k ∈ l := by
  unfold insertKey
  split
  · exact Iff.rfl
  · simp [List.mem_cons, h]

theorem mem_removeKey {k id : Nat} {l : List Nat} :
    k ∈ removeKey id l ↔ k ∈ l ∧ k ≠ id := by
  simp [removeKey, List.mem_filter]

theorem not_mem_removeKey_self (id : Nat) (l : List Nat) : id ∉ removeKey id l := by
  simp [mem_removeKey]

theorem fireErrors_of_mem {id : Nat} {errCbs : List Nat} (h : id ∈ errCbs)
    (msgs acc : List String) : fireErrors id msgs errCbs acc = acc ++ msgs := by
  induction msgs generalizing acc with
  | nil => simp [fireErrors]
  | cons m rest ih => simp [fireErrors, h, ih]

theorem gsDrop_wkState (g : PdfGlobalSettings) (s : ProcState) :
    (g.drop s).wkState = s.wkState := by
  unfold PdfGlobalSettings.drop
  split <;> rfl

theorem gsDrop_finished (g : PdfGlobalSettings) (s : ProcState) :
    (g.drop s).finishedCallbacks = s.finishedCallbacks := by
  unfold PdfGlobalSettings.drop
  split <;> rfl

theorem gsDrop_error (g : PdfGlobalSettings) (s : ProcState) :
    (g.drop s).errorCallbacks = s.errorCallbacks := by
  unfold PdfGlobalSettings.drop
  split <;> rfl

theorem convDrop_wkState (c : PdfConverter) (s : ProcState) :
    (c.drop s).wkState = s.wkState := by
  simp [PdfConverter.drop, gsDrop_wkState]

theorem convDrop_finished (c : PdfConverter) (s : ProcState) :
    (c.drop s).finishedCallbacks = s.finishedCallbacks := by
  simp [PdfConverter.drop, gsDrop_finished]

theorem convDrop_error (c : PdfConverter) (s : ProcState) :
    (c.drop s).errorCallbacks = s.errorCallbacks := by
  simp [PdfConverter.drop, gsDrop_error]

/-- One convert call never touches the engine state word itself: the Busy
flag set at settings creation survives the conversion, succeed or fail. -/
theorem convert_wkState (conv : PdfConverter) (script : ConvertScript) (outLen : Nat)
    (s : ProcState) : ((conv.convert script outLen s).2).wkState = s.wkState := by
  by_cases hfin : script.finished = 1 <;>
    simp [PdfConverter.convert, fireFinished, mem_insertKey_self, hfin, convDrop_wkState]

/-- The registries after one convert call: the converter's key is inserted,
removed by the fired finished callback, and removed again (a no-op) by
remove_callbacks on both exits. -/
theorem convert_registries (conv : PdfConverter) (script : ConvertScript) (outLen : Nat)
    (s : ProcState) :
    ((conv.convert script outLen s).2).finishedCallbacks
        = removeKey conv.converter
            (removeKey conv.converter (insertKey conv.converter s.finishedCallbacks)) ∧
    ((conv.convert script outLen s).2).errorCallbacks
        = removeKey conv.converter (insertKey conv.converter s.errorCallbacks) := by
  by_cases hfin : script.finished = 1 <;>
    simp [PdfConverter.convert, fireFinished, mem_insertKey_self, hfin,
      convDrop_finished, convDrop_error]

/-- Evaluation of PdfGlobalSettings::new on a Ready state when the caller is
on the (lazily forced) init thread: the handle is created and the state flips
to Busy in the same step. -/
theorem new_on_ready {tid : Nat} {s : ProcState} (gsPtr : Nat)
    (hr : s.wkState = .Ready) (ht : (derefInitThread tid s).1 = tid) :
    (PdfGlobalSettings.new tid gsPtr s).1 = .ok ⟨gsPtr, true⟩ ∧
    (PdfGlobalSettings.new tid gsPtr s).2.wkState = .Busy := by
  rcases s with ⟨st, it, fc, ec, nc⟩
  have hst : st = WkhtmltopdfState.Ready := hr
  subst hst
  cases it with
  | none => simp [PdfGlobalSettings.new, derefInitThread]
  | some t =>
      have : t = tid := by simpa [derefInitThread] using ht
      subst this
      simp [PdfGlobalSettings.new, derefInitThread]

/-- Evaluation of PdfGlobalSettings::new on a Busy state when the caller is
on the (lazily forced) init thread. -/
theorem new_on_busy {tid : Nat} {s : ProcState} (gsPtr : Nat)
    (hb : s.wkState = .Busy) (ht : (derefInitThread tid s).1 = tid) :
    (PdfGlobalSettings.new tid gsPtr s).1 = .error .Blocked := by
  rcases s with ⟨st, it, fc, ec, nc⟩
  have hst : st = WkhtmltopdfState.Busy := hb
  subst hst
  cases it with
  | none => simp [PdfGlobalSettings.new, derefInitThread]
  | some t =>
      have : t = tid := by simpa [derefInitThread] using ht
      subst this
      simp [PdfGlobalSettings.new, derefInitThread]

/-- C1 counterexample: when the first pdf_init call's native initialization
reports failure, the state stays New, so the second pdf_init call returns Ok
again instead of the claimed Err(IllegalInit). -/
theorem pdf_init_second_call_after_failed_native_init :
    (pdf_init false 7 (pdf_init false 7 ProcState.startup).2).1 = .ok ⟨⟩ ∧
    (pdf_init false 7 (pdf_init false 7 ProcState.startup).2).1 ≠ .error .IllegalInit := by
  decide

/-- C1 (amended): starting from the uninitialized state, pdf_init returns
Ok(PdfGuard) whatever the native init reported; when the native init
succeeded the state is Ready and every subsequent call fails with
IllegalInit; when the native init failed the state remains New, so the next
call behaves as a first call again rather than failing with IllegalInit. -/
theorem pdf_init_single_init (b2 : Bool) (tid tid2 : Nat) (s : ProcState)
    (h : s.wkState = .New) :
    (∀ b : Bool, (pdf_init b tid s).1 = .ok ⟨⟩) ∧
    ((pdf_init true tid s).2.wkState = .Ready ∧
     (pdf_init b2 tid2 (pdf_init true tid s).2).1 = .error .IllegalInit ∧
     (pdf_init false tid s).2.wkState = .New) := by
  rcases s with ⟨st, it, fc, ec, nc⟩
  have hst : st = WkhtmltopdfState.New := h
  subst hst
  refine ⟨fun b => ?_, ?_, ?_, ?_⟩
  · cases b <;> cases it <;> simp [pdf_init, derefInitThread]
  · cases it <;> simp [pdf_init, derefInitThread]
  · cases it <;> simp [pdf_init, derefInitThread]
  · cases it <;> simp [pdf_init, derefInitThread]

/-- C1 witness: the amended theorem applied at the startup state. -/
theorem pdf_init_single_init_witness :
    ProcState.startup.wkState = .New ∧
    (pdf_init true 7 ProcState.startup).1 = .ok ⟨⟩ ∧
    (pdf_init false 8 (pdf_init true 7 ProcState.startup).2).1 = .error .IllegalInit :=
  ⟨rfl, (pdf_init_single_init false 7 8 ProcState.startup rfl).1 true,
    (pdf_init_single_init false 7 8 ProcState.startup rfl).2.2.1⟩

/-- C2: PdfGlobalSettings::new called from the initialization thread (the
lazily forced init thread id equals the caller's) returns NotInitialized on
New and Dropped, Blocked on Busy, and on Ready returns the fresh handle
while the very same locked step leaves the state Busy. -/
theorem pdf_global_settings_new_gate (tid gsPtr : Nat) (s : ProcState)
    (h : (derefInitThread tid s).1 = tid) :
    (s.wkState = .New → (PdfGlobalSettings.new tid gsPtr s).1 = .error .NotInitialized) ∧
    (s.wkState = .Dropped → (PdfGlobalSettings.new tid gsPtr s).1 = .error .NotInitialized) ∧
    (s.wkState = .Busy → (PdfGlobalSettings.new tid gsPtr s).1 = .error .Blocked) ∧
    (s.wkState = .Ready →
      (PdfGlobalSettings.new tid gsPtr s).1 = .ok ⟨gsPtr, true⟩ ∧
      (PdfGlobalSettings.new tid gsPtr s).2.wkState = .Busy) := by
  rcases s with ⟨st, it, fc, ec, nc⟩
  cases it with
  | none => cases st <;> simp [PdfGlobalSettings.new, derefInitThread]
  | some t =>
      have htt : t = tid := by simpa [derefInitThread] using h
      subst htt
      cases st <;> simp [PdfGlobalSettings.new, derefInitThread]

/-- C2 witness: the gate applied on the concrete Ready state. -/
theorem pdf_global_settings_new_gate_witness :
    (derefInitThread 7 readyState).1 = 7 ∧ readyState.wkState = .Ready ∧
    (PdfGlobalSettings.new 7 100 readyState).1 = .ok ⟨100, true⟩ :=
  ⟨by decide, by decide,
    ((pdf_global_settings_new_gate 7 100 readyState (by decide)).2.2.2 (by decide)).1⟩

/-- C5: a settings-creation attempt from a thread other than the recorded
init thread fails with ThreadMismatch(recorded, calling) and leaves the
whole process state — native call counts and engine state word included —
untouched. -/
theorem new_thread_mismatch_pure (tid exp gsPtr : Nat) (s : ProcState)
    (h1 : s.initThread = some exp) (h2 : exp ≠ tid) :
    PdfGlobalSettings.new tid gsPtr s = (.error (.ThreadMismatch exp tid), s) ∧
    (PdfGlobalSettings.new tid gsPtr s).2.native = s.native ∧
    (PdfGlobalSettings.new tid gsPtr s).2.wkState = s.wkState := by
  have he : PdfGlobalSettings.new tid gsPtr s = (.error (.ThreadMismatch exp tid), s) := by
    simp [PdfGlobalSettings.new, derefInitThread, h1, h2]
  exact ⟨he, by rw [he], by rw [he]⟩

/-- C5 witness: the mismatch theorem applied on the concrete state whose init
thread is 3, called from thread 9. -/
theorem new_thread_mismatch_pure_witness :
    mismatchState.initThread = some 3 ∧ (3 : Nat) ≠ 9 ∧
    PdfGlobalSettings.new 9 100 mismatchState
      = (.error (.ThreadMismatch 3 9), mismatchState) :=
  ⟨rfl, by decide, (new_thread_mismatch_pure 9 3 100 mismatchState rfl (by decide)).1⟩

/-- C3 counterexample: while Busy, a cross-thread creation attempt fails with
ThreadMismatch rather than the claimed Blocked; and after a failed
conversion's cleanup (the consumed converter destroyed on the failure exit)
the state is still Busy, so the next creation attempt on the init thread
fails with Blocked instead of succeeding as claimed. -/
theorem busy_exclusion_counterexample :
    (PdfGlobalSettings.new 7 100 readyState).1 = .ok ⟨100, true⟩ ∧
    (PdfGlobalSettings.new 8 101 busyState).1 = .error (.ThreadMismatch 7 8) ∧
    failedRun.1 = .err (.ConversionFailed "boom") ∧
    failedRun.2.wkState = .Busy ∧
    (PdfGlobalSettings.new 7 102 failedRun.2).1 = .error .Blocked := by
  decide

/-- C3 (amended): while EngineState is Busy every creation attempt from the
init thread returns Blocked (cross-thread attempts fail earlier with
ThreadMismatch); a conversion never changes the state word itself, so a
failed conversion leaves it Busy; dropping the OutputHandle of a successful
conversion makes the state Ready again, after which a creation attempt on
the init thread succeeds. -/
theorem busy_exclusion (tid gsPtr : Nat) (s : ProcState) :
    (s.wkState = .Busy → (derefInitThread tid s).1 = tid →
      (PdfGlobalSettings.new tid gsPtr s).1 = .error .Blocked) ∧
    (∀ conv : PdfConverter, ∀ script outLen,
      ((conv.convert script outLen s).2).wkState = s.wkState) ∧
    (∀ out : PdfOutput, (out.drop s).wkState = .Ready) ∧
    (∀ out : PdfOutput, (derefInitThread tid (out.drop s)).1 = tid →
      (PdfGlobalSettings.new tid gsPtr (out.drop s)).1 = .ok ⟨gsPtr, true⟩) := by
  refine ⟨fun hb ht => new_on_busy gsPtr hb ht,
    fun conv script outLen => convert_wkState conv script outLen s,
    fun out => ?_, fun out ht => ?_⟩
  · simp [PdfOutput.drop, convDrop_wkState]
  · exact (new_on_ready gsPtr (by simp [PdfOutput.drop, convDrop_wkState]) ht).1

/-- C3 witness: the amended theorem applied on the concrete Busy state and on
the state left by the concrete failed run. -/
theorem busy_exclusion_witness :
    busyState.wkState = .Busy ∧
    (PdfGlobalSettings.new 7 103 busyState).1 = .error .Blocked ∧
    ((⟨3, busyConverter⟩ : PdfOutput).drop failedRun.2).wkState = .Ready :=
  ⟨by decide, (busy_exclusion 7 103 busyState).1 (by decide) (by decide),
    (busy_exclusion 7 103 failedRun.2).2.2.1 ⟨3, busyConverter⟩⟩

/-- C4: the code violates the claim — after the guard's drop has set the
state to Dropped, dropping a still-live PdfOutput unconditionally sets it
back to Ready, after which PdfGlobalSettings::new succeeds again instead of
failing with NotInitialized for the rest of the process. -/
theorem output_drop_resurrects_dropped_state :
    happyRun.1 = .ok ⟨3, busyConverter⟩ ∧
    (PdfGuard.drop ⟨⟩ true happyRun.2).wkState = .Dropped ∧
    ((⟨3, busyConverter⟩ : PdfOutput).drop (PdfGuard.drop ⟨⟩ true happyRun.2)).wkState
      = .Ready ∧
    (PdfGlobalSettings.new 7 300
        ((⟨3, busyConverter⟩ : PdfOutput).drop (PdfGuard.drop ⟨⟩ true happyRun.2))).1
      = .ok ⟨300, true⟩ := by
  decide

/-- C6: when the native run fires error messages in order and the finished
callback then fires with a non-success status code, convert returns
ConversionFailed carrying exactly those messages joined with ", " in firing
order. -/
theorem convert_failure_joins_error_messages (conv : PdfConverter) (script : ConvertScript)
    (outLen : Nat) (s : ProcState) (h : script.finished ≠ 1) :
    (conv.convert script outLen s).1
      = .err (.ConversionFailed (String.intercalate ", " script.errors)) := by
  have hacc : fireErrors conv.converter script.errors
      (insertKey conv.converter s.errorCallbacks) [] = script.errors := by
    rw [fireErrors_of_mem (mem_insertKey_self _ _)]
    rfl
  simp [PdfConverter.convert, fireFinished, mem_insertKey_self, hacc, h]

/-- C6 witness: two error firings "bad css" then "bad font" and a failing
finished status yield ConversionFailed("bad css, bad font"). -/
theorem convert_failure_joins_error_messages_witness :
    (0 : Int) ≠ 1 ∧
    (busyConverter.convert ⟨["bad css", "bad font"], 0⟩ 0 converterState).1
      = .err (.ConversionFailed (String.intercalate ", " ["bad css", "bad font"])) ∧
    String.intercalate ", " ["bad css", "bad font"] = "bad css, bad font" :=
  ⟨by decide,
    convert_failure_joins_error_messages busyConverter ⟨["bad css", "bad font"], 0⟩ 0
      converterState (by decide),
    by decide⟩

/-- C7: after one convert call returns — success or failure — the converter's
identity is absent from both callback registries, and every other identity's
membership is exactly what it was before the call (the one insertion per
registry was matched by removal, idempotent where the finished callback
already removed its entry). -/
theorem convert_registry_absence (conv : PdfConverter) (script : ConvertScript)
    (outLen : Nat) (s : ProcState) :
    conv.converter ∉ ((conv.convert script outLen s).2).finishedCallbacks ∧
    conv.converter ∉ ((conv.convert script outLen s).2).errorCallbacks ∧
    ∀ k, k ≠ conv.converter →
      ((k ∈ ((conv.convert script outLen s).2).finishedCallbacks ↔ k ∈ s.finishedCallbacks) ∧
       (k ∈ ((conv.convert script outLen s).2).errorCallbacks ↔ k ∈ s.errorCallbacks)) := by
  obtain ⟨hf, he⟩ := convert_registries conv script outLen s
  refine ⟨?_, ?_, fun k hk => ⟨?_, ?_⟩⟩
  · rw [hf]
    exact not_mem_removeKey_self _ _
  · rw [he]
    exact not_mem_removeKey_self _ _
  · rw [hf]
    simp [mem_removeKey, mem_insertKey hk, hk]
  · rw [he]
    simp [mem_removeKey, mem_insertKey hk, hk]

/-- C7 witness: the registry-absence theorem applied to the concrete failed
run (converter identity 200; identity 7 was never present and stays so). -/
theorem convert_registry_absence_witness :
    (200 ∉ failedRun.2.finishedCallbacks) ∧ (200 ∉ failedRun.2.errorCallbacks) ∧
    (7 ∈ failedRun.2.errorCallbacks ↔ 7 ∈ converterState.errorCallbacks) :=
  ⟨(convert_registry_absence busyConverter ⟨["boom"], 0⟩ 0 converterState).1,
   (convert_registry_absence busyConverter ⟨["boom"], 0⟩ 0 converterState).2.1,
   ((convert_registry_absence busyConverter ⟨["boom"], 0⟩ 0 converterState).2.2 7
     (by decide)).2⟩

/-- C8: the needs_delete (needs_release) transfer discipline — a handle whose
flag is false performs no release at all on drop (the state, destroy
counters included, is unchanged); create_converter consumes the global
handle with the flag flipped to false, so the converter-owned handle
releases nothing on drop; add_page_object and add_html_object flip the
object handle's flag before its end-of-scope drop, so the success path makes
no object-settings destroy call; release happens on drop exactly while the
flag is still true. -/
theorem needs_delete_transfer_discipline :
    (∀ gs : PdfGlobalSettings, ∀ s : ProcState, gs.needs_delete = false → gs.drop s = s) ∧
    (∀ os : PdfObjectSettings, ∀ s : ProcState, os.needs_delete = false → os.drop s = s) ∧
    (∀ gs : PdfGlobalSettings, ∀ convPtr : Nat, ∀ s : ProcState,
      ((gs.create_converter convPtr s).1)._global.needs_delete = false ∧
      ((gs.create_converter convPtr s).1)._global.drop ((gs.create_converter convPtr s).2)
        = (gs.create_converter convPtr s).2) ∧
    (∀ conv : PdfConverter, ∀ obj : PdfObjectSettings, ∀ page : String, ∀ s : ProcState,
      hasNullByte page = false →
      ((conv.add_page_object obj page 1 s).2).native.destroy_object_settings
        = s.native.destroy_object_settings) ∧
    (∀ conv : PdfConverter, ∀ obj : PdfObjectSettings, ∀ html : String, ∀ s : ProcState,
      hasNullByte html = false →
      ((conv.add_html_object obj html s).2).native.destroy_object_settings
        = s.native.destroy_object_settings) ∧
    (∀ gs : PdfGlobalSettings, ∀ s : ProcState, gs.needs_delete = true →
      (gs.drop s).native.destroy_global_settings
        = s.native.destroy_global_settings + 1) := by
  have hpage : hasNullByte "page" = false := by decide
  refine ⟨fun gs s h => ?_, fun os s h => ?_, fun gs convPtr s => ⟨rfl, ?_⟩,
    fun conv obj page s h => ?_, fun conv obj html s h => ?_, fun gs s h => ?_⟩
  · simp [PdfGlobalSettings.drop, h]
  · simp [PdfObjectSettings.drop, h]
  · simp [PdfGlobalSettings.create_converter, PdfGlobalSettings.drop]
  · simp [PdfConverter.add_page_object, PdfObjectSettings.set, PdfObjectSettings.drop,
      hpage, h]
  · simp [PdfConverter.add_html_object, PdfObjectSettings.drop, h]
  · simp [PdfGlobalSettings.drop, h]

/-- C8 witness: the discipline applied to a transferred global handle, the
converter-consumed handle, and a concrete page-object attachment. -/
theorem needs_delete_transfer_discipline_witness :
    (⟨100, false⟩ : PdfGlobalSettings).drop busyState = busyState ∧
    (((⟨100, true⟩ : PdfGlobalSettings).create_converter 200 busyState).1)._global.needs_delete
      = false ∧
    hasNullByte "page.html" = false ∧
    ((busyConverter.add_page_object ⟨5, true⟩ "page.html" 1 converterState).2).native.destroy_object_settings
      = converterState.native.destroy_object_settings :=
  ⟨needs_delete_transfer_discipline.1 ⟨100, false⟩ busyState rfl,
    (needs_delete_transfer_discipline.2.2.1 ⟨100, true⟩ 200 busyState).1,
    by decide,
    needs_delete_transfer_discipline.2.2.2.1 busyConverter ⟨5, true⟩ "page.html"
      converterState (by decide)⟩

/-- C9 counterexample: a setting name with an embedded null byte makes set
panic through the CString expect — no typed error of any kind is returned
(and the error enum of src/error.rs has no EncodingFailure variant at
all). -/
theorem set_null_byte_panics :
    (PdfGlobalSettings.set ⟨100, true⟩ "a\x00b" "v" 1 ProcState.startup).1
      = .panicked "setting name may not contain interior null bytes" ∧
    ((PdfGlobalSettings.set ⟨100, true⟩ "a\x00b" "v" 1 ProcState.startup).1).isErr
      = false := by
  decide

/-- C9 (amended): set(name, value) panics via the CString expect — name
checked first — when name or value embeds a null byte, returning no typed
error; with null-free strings, native rejection (return 0) yields
GlobalSettingFailure(name, value) on a global handle and
ObjectSettingFailure(name, value) on an object handle, while native
acceptance (return 1) yields Ok. -/
theorem set_outcomes (gs : PdfGlobalSettings) (os : PdfObjectSettings)
    (name value : String) (r : Int) (s : ProcState) :
    (hasNullByte name = true →
      (gs.set name value r s).1
          = .panicked "setting name may not contain interior null bytes" ∧
      ((gs.set name value r s).1).isErr = false ∧
      ((os.set name value r s).1).isErr = false) ∧
    (hasNullByte name = false → hasNullByte value = true →
      (gs.set name value r s).1
        = .panicked "setting value may not contain interior null bytes") ∧
    (hasNullByte name = false → hasNullByte value = false → r = 0 →
      (gs.set name value r s).1 = .err (.GlobalSettingFailure name value) ∧
      (os.set name value r s).1 = .err (.ObjectSettingFailure name value)) ∧
    (hasNullByte name = false → hasNullByte value = false → r = 1 →
      (gs.set name value r s).1 = .ok ∧ (os.set name value r s).1 = .ok) := by
  refine ⟨fun h1 => ?_, fun h1 h2 => ?_, fun h1 h2 h3 => ?_, fun h1 h2 h3 => ?_⟩ <;>
    simp [PdfGlobalSettings.set, PdfObjectSettings.set, SetOutcome.isErr, h1, *]

/-- C9 witness: the amended theorem applied at a rejected null-free pair. -/
theorem set_outcomes_witness :
    hasNullByte "a" = false ∧ hasNullByte "v" = false ∧
    (PdfGlobalSettings.set ⟨100, true⟩ "a" "v" 0 ProcState.startup).1
      = .err (.GlobalSettingFailure "a" "v") :=
  ⟨by decide, by decide,
    ((set_outcomes ⟨100, true⟩ ⟨5, true⟩ "a" "v" 0 ProcState.startup).2.2.1
      (by decide) (by decide) rfl).1⟩

/-- C10: when the path does not name an existing regular file,
build_from_path returns Err(GlobalSettingFailure("in", path)) at once: the
image process state is returned entirely unchanged — in particular no global
settings handle is created and the engine state word keeps its value. -/
theorem build_from_path_missing_file (self : ImageBuilder) (pathIsFile : Bool)
    (path : String) (tid gsPtr : Nat) (setRet : String → String → Int) (inRet : Int)
    (convPtr : Nat) (script : ConvertScript) (outLen : Nat) (s : ProcState)
    (h : pathIsFile = false) :
    self.build_from_path pathIsFile path tid gsPtr setRet inRet convPtr script outLen s
      = (.err (.GlobalSettingFailure "in" path), s) ∧
    (self.build_from_path pathIsFile path tid gsPtr setRet inRet convPtr script outLen
        s).2.native.create_global_settings = s.native.create_global_settings ∧
    (self.build_from_path pathIsFile path tid gsPtr setRet inRet convPtr script outLen
        s).2.wkState = s.wkState := by
  subst h
  exact ⟨rfl, rfl, rfl⟩

/-- C10 witness: the missing-file theorem applied at a concrete builder,
path and state. -/
theorem build_from_path_missing_file_witness :
    (false = false) ∧
    ImageBuilder.build_from_path ⟨[]⟩ false "missing.html" 7 100 acceptAll 1 200 ⟨[], 1⟩ 0
        readyState
      = (.err (.GlobalSettingFailure "in" "missing.html"), readyState) :=
  ⟨rfl, (build_from_path_missing_file ⟨[]⟩ false "missing.html" 7 100 acceptAll 1 200
    ⟨[], 1⟩ 0 readyState rfl).1⟩

end Wkhtmltopdf
